import Mathlib

/-!
Verification development for the solid-oidc-client-browser repository.

Shallow embedding of the cross-tab token-refresh coordination engine
(src/web/RefreshWorker.ts, class Refresher) and of the per-tab session
state machine (src/web/Session.ts, class WebWorkerSession, on top of
src/core/Session.ts, class SessionCore).

Modelling conventions:
* JavaScript is single-threaded and cooperative; every method of the
  source classes is embedded as a pure function from the component state
  to a new state plus a chronological list of observable events
  (network invocations, postMessage calls, event dispatches).
* Async functions are split at their suspension points: starting a
  refresh (`performRefresh`, which issues the network call) is separate
  from its continuation (`refreshComplete`, which receives the settled
  result of the GrantClient call `renewTokens`).
* Numbers are rationals (token lifetimes such as 37.5 s are not
  integral); `Date.now()/1000` floored is an integer.
* A JWT is represented by its decodable content: `decodeJwt` either
  fails (malformed token) or yields the claims `{ webid?, exp? }`.
  A missing, non-numeric or NaN `exp` claim is `none`.
-/

namespace SolidOidc

/-- A JWT access token, represented by what the external collaborator
`decodeJwt` can extract from it: either the token is malformed (decoding
throws) or it carries an optional `webid` claim and an optional numeric
`exp` claim. -/
inductive Jwt where
  | malformed
  | valid (webid : Option String) (exp : Option ℚ)
deriving DecidableEq, Repr

/-- Claims of a decoded JWT, per the spec interface
`decode(accessToken) -> \x7b webid?, exp? \x7d`. -/
structure JwtClaims where
  webid : Option String
  exp : Option ℚ
deriving DecidableEq, Repr

/-- External collaborator `decodeJwt` (jose): fails on a malformed token,
otherwise returns the claims. -/
def decodeJwt : Jwt → Option JwtClaims
  | .malformed => none
  | .valid w e => some ⟨w, e⟩

/-- TokenDetails from src/core/SessionInformation.ts. The DPoP key pair is
an opaque handle. -/
structure TokenDetails where
  access_token : Jwt
  id_token : Option String
  refresh_token : Option String
  scope : Option String
  expires_in : ℚ
  token_type : String
  dpop_key_pair : Nat
deriving DecidableEq, Repr

/-- Messages broadcast or unicast by the Refresher to tabs
(src/web/RefreshMessageTypes.ts, coordinator-to-tab direction). The
ERROR_ON_REFRESH message carries `error.message`. -/
inductive WorkerMsg where
  | tokenDetailsMsg (td : TokenDetails)
  | errorOnRefresh (msg : String)
  | expired
deriving DecidableEq, Repr

/-- Observable actions of the Refresher, in chronological order:
a broadcast to all tabs, a `postMessage` to a single requesting port,
or the start of a GrantClient network call (`renewTokens`). -/
inductive REvent where
  | broadcast (m : WorkerMsg)
  | unicast (port : Nat) (m : WorkerMsg)
  | grantCall
deriving DecidableEq, Repr

/-- State of the Refresher (src/web/RefreshWorker.ts, class fields).
Timers are modelled by their liveness: `refreshTimerArmed` /
`logoutTimerArmed` hold the delay (ms) of a currently armed, not yet
fired, not yet cancelled timeout. `refreshPromise` holds the identity of
the in-flight refresh promise; `nextPromiseId` supplies fresh promise
identities. -/
structure RefresherState where
  tokenDetails : Option TokenDetails
  exp : Option ℚ
  refreshTimerArmed : Option ℚ
  logoutTimerArmed : Option ℚ
  timersAreRunning : Bool
  refreshPromise : Option Nat
  nextPromiseId : Nat
deriving DecidableEq, Repr

/-- The freshly constructed Refresher. -/
def initialRefresher : RefresherState :=
  { tokenDetails := none
    exp := none
    refreshTimerArmed := none
    logoutTimerArmed := none
    timersAreRunning := false
    refreshPromise := none
    nextPromiseId := 0 }

/-- Refresher.isTokenExpired. The source checks
`typeof exp !== number || isNaN(exp)` (modelled by `none`) and otherwise
returns `exp < currentTimeSeconds + bufferSeconds` where
`currentTimeSeconds = Math.floor(Date.now() / 1000)`. -/
def isTokenExpired (exp : Option ℚ) (now : ℤ) (bufferSeconds : ℚ := 0) : Bool :=
  match exp with
  | none => true
  | some e => e < (now : ℚ) + bufferSeconds

/-- JavaScript truthiness of the numeric field `this.exp`:
`undefined`, `NaN` (both `none`) and `0` are falsy. -/
def expTruthy : Option ℚ → Bool
  | none => false
  | some e => e ≠ 0

/-- Refresher.clearAllTimers: cancels whichever of the two timeouts is
still live and resets `timersAreRunning`. -/
def clearAllTimers (s : RefresherState) : RefresherState :=
  { s with refreshTimerArmed := none, logoutTimerArmed := none, timersAreRunning := false }

/-- Refresher.scheduleTimers. Source constants: REFRESH_THRESHOLD_RATIO
= 0.8, MINIMUM_REFRESH_BUFFER_MS = 30 * 1000, LOGOUT_WARNING_BUFFER_MS
= 5 * 1000. The refresh timeout is armed only when
`0.8 * expiresIn * 1000 > 30000`; the logout timeout is always armed with
delay `expiresIn * 1000 - 5000`. -/
def scheduleTimers (s : RefresherState) (expiresIn : ℚ) : RefresherState :=
  let s1 := clearAllTimers s
  let s2 := { s1 with timersAreRunning := true }
  let expiresInMs := expiresIn * 1000
  let timeUntilRefresh := (0.8 : ℚ) * expiresInMs
  let s3 :=
    if timeUntilRefresh > 30 * 1000 then
      { s2 with refreshTimerArmed := some timeUntilRefresh }
    else s2
  let timeUntilLogout := expiresInMs - 5 * 1000
  { s3 with logoutTimerArmed := some timeUntilLogout }

/-- Refresher.performRefresh: if a refresh promise is already in flight,
return it unchanged (no event); otherwise start `doRefresh` (whose
synchronous prefix issues the GrantClient network call) and record the
new in-flight promise. Returns the promise identity. -/
def performRefresh (s : RefresherState) : RefresherState × List REvent × Nat :=
  match s.refreshPromise with
  | some p => (s, [], p)
  | none =>
      let p := s.nextPromiseId
      ({ s with refreshPromise := some p, nextPromiseId := p + 1 }, [.grantCall], p)

/-- performRefresh with the returned promise discarded (call sites that
do not use the returned promise). -/
def performRefreshUnit (s : RefresherState) : RefresherState × List REvent :=
  ((performRefresh s).1, (performRefresh s).2.1)

/-- Continuation of Refresher.doRefresh once the GrantClient call
(`renewTokens`) has settled. On success the new TokenDetails are stored,
the new `exp` is parsed, TOKEN_DETAILS is broadcast and both timers are
rescheduled from the new lifetime; if the token does not decode, the
thrown error is caught and ERROR_ON_REFRESH is broadcast. On failure
ERROR_ON_REFRESH is broadcast with the error message and nothing else
changes. In every branch the `finally` clears the in-flight promise. -/
def refreshComplete (s : RefresherState) (result : Except String TokenDetails) :
    RefresherState × List REvent :=
  match result with
  | .error msg =>
      ({ s with refreshPromise := none }, [.broadcast (.errorOnRefresh msg)])
  | .ok td =>
      match decodeJwt td.access_token with
      | none =>
          ({ s with tokenDetails := some td, refreshPromise := none },
           [.broadcast (.errorOnRefresh "Invalid JWT")])
      | some claims =>
          let s1 := { s with tokenDetails := some td, exp := claims.exp }
          let s2 := scheduleTimers s1 td.expires_in
          ({ s2 with refreshPromise := none },
           [.broadcast (.tokenDetailsMsg td)])

/-- Refresher.handleSchedule: store the TokenDetails, parse `exp` from
the access token (a malformed token makes the async method reject after
the assignment, flagged by the returned Bool), broadcast TOKEN_DETAILS
and arm the timers from `expires_in`. -/
def handleSchedule (s : RefresherState) (td : TokenDetails) :
    RefresherState × List REvent × Bool :=
  let s1 := { s with tokenDetails := some td }
  match decodeJwt td.access_token with
  | none => (s1, [], true)
  | some claims =>
      let s2 := { s1 with exp := claims.exp }
      let s3 := scheduleTimers s2 td.expires_in
      ({ s3 with timersAreRunning := true },
       [.broadcast (.tokenDetailsMsg td)], false)

/-- Refresher.handleRefresh: if `this.tokenDetails && this.exp &&
!this.isTokenExpired(this.exp)` then reply to the requesting port only
with the cached TokenDetails; otherwise perform a refresh. -/
def handleRefresh (s : RefresherState) (now : ℤ) (port : Nat) :
    RefresherState × List REvent :=
  match s.tokenDetails with
  | some td =>
      if expTruthy s.exp && !(isTokenExpired s.exp now 0) then
        (s, [.unicast port (.tokenDetailsMsg td)])
      else performRefreshUnit s
  | none => performRefreshUnit s

/-- Refresher.handleStop: with no cached TokenDetails it returns at once
(being idle); otherwise it broadcasts EXPIRED, clears
tokenDetails / exp / refreshPromise and cancels both timers. -/
def handleStop (s : RefresherState) : RefresherState × List REvent :=
  match s.tokenDetails with
  | none => (s, [])
  | some _ =>
      let s1 := { s with tokenDetails := none, exp := none, refreshPromise := none }
      (clearAllTimers s1, [.broadcast .expired])

/-- The refresh timeout firing: the timer is consumed and
`performRefresh` runs. -/
def refreshTimerFire (s : RefresherState) : RefresherState × List REvent :=
  performRefreshUnit { s with refreshTimerArmed := none }

/-- The final logout timeout firing: the timer is consumed,
`tokenDetails` is cleared and EXPIRED is broadcast. Nothing else changes
(in particular `timersAreRunning`, `exp` and `refreshPromise` keep their
values). -/
def logoutTimerFire (s : RefresherState) : RefresherState × List REvent :=
  ({ s with tokenDetails := none, logoutTimerArmed := none },
   [.broadcast .expired])

/-- The transport shell broadcast primitive: `postMessage` to every
currently connected port. -/
def fanOut (ports : List Nat) (m : WorkerMsg) : List (Nat × WorkerMsg) :=
  ports.map (fun p => (p, m))

/-- Number of GrantClient network invocations in an event trace. -/
def countGrantCalls (evs : List REvent) : Nat :=
  (evs.filter fun e => match e with | .grantCall => true | _ => false).length

/-- Number of broadcasts (of any message) in an event trace. -/
def countBroadcasts (evs : List REvent) : Nat :=
  (evs.filter fun e => match e with | .broadcast _ => true | _ => false).length

/-! ## Per-tab session state machine

The tab side is the class WebWorkerSession (src/web/Session.ts) on top of
SessionCore (src/core/Session.ts). The source tree carries the
WebWorkerSession of release 0.2.1 together with an earlier snapshot of
SessionCore: the 0.2.1 SessionCore members that WebWorkerSession relies
on (the SessionEvents dispatch machinery, the per-tab pending restore
promise slots, the locally tracked token expiry with the authFetch
expiry gate, and the client-id URI preservation on logout) are not among
the source snapshots. Those members are modelled from the spec below and
are marked as such; everything else follows the SessionCore and
WebWorkerSession sources. -/

/-- ClientDetails from src/core/SessionInformation.ts (union of the
dereferenceable-id and dynamic-registration shapes; only the fields the
claims mention are carried). -/
structure ClientDetails where
  client_id : Option String
  redirect_uris : List String
deriving DecidableEq, Repr

/-- IdentityProviderDetails from src/core/SessionInformation.ts. -/
structure IdpDetails where
  idp : String
  jwks_uri : Option String
  token_endpoint : Option String
deriving DecidableEq, Repr

/-- Requests a tab posts to the shared worker
(src/web/RefreshMessageTypes.ts, tab-to-coordinator direction). -/
inductive WorkerReq where
  | schedule
  | refresh
  | stop
  | disconnect
deriving DecidableEq, Repr

/-- The three session lifecycle events of the SessionEvents enum
(STATE_CHANGE, EXPIRATION_WARNING, EXPIRATION); each dispatch also feeds
the legacy callback of the same transition. -/
inductive SessionNotice where
  | stateChange
  | expirationWarning
  | expiration
deriving DecidableEq, Repr

/-- Observable actions of a tab session, in chronological order. -/
inductive SEvent where
  | postToWorker (m : WorkerReq)
  | dispatch (n : SessionNotice)
  | resolveRestore (p : Nat)
  | rejectRestore (p : Nat) (msg : String)
  | dbClear
  | netFetch (hasDpopHeader : Bool) (hasAuthHeader : Bool)
deriving DecidableEq, Repr

/-- State of one tab session (SessionCore fields plus the
WebWorkerSession pending-restore slot). `currentAth` stands for the
DPoP access-token hash: the external SHA-256 is modelled by remembering
the hashed token itself. `sessionExp` is the locally tracked expiry of
the access token (release 0.2.1 SessionCore; modelled from the spec:
derived entirely from the current access token claims). `refreshPromise`
holds the identity of this tab pending restore promise. -/
structure SessionState where
  isActive : Bool
  webId : Option String
  currentAth : Option Jwt
  clientDetails : Option ClientDetails
  idpDetails : Option IdpDetails
  tokenDetails : Option TokenDetails
  sessionExp : Option ℚ
  refreshPromise : Option Nat
  nextPromiseId : Nat
deriving DecidableEq, Repr

/-- A freshly constructed WebWorkerSession with the given client
details. -/
def initialSession (cd : Option ClientDetails) : SessionState :=
  { isActive := false
    webId := none
    currentAth := none
    clientDetails := cd
    idpDetails := none
    tokenDetails := none
    sessionExp := none
    refreshPromise := none
    nextPromiseId := 0 }

/-- External SHA-256 access-token hash (SessionCore._computeAth),
modelled as remembering the hashed token. -/
def computeAth (t : Jwt) : Jwt := t

/-- Characters allowed in a URI scheme after its initial letter
(RFC 3986: letter, digit, plus, minus, dot). -/
def isSchemeChar (c : Char) : Bool :=
  c.isAlpha || c.isDigit || c = '+' || c = '-' || c = '.'

/-- The characters before the first colon, or none when there is no
colon. -/
def schemeSplit : List Char → Option (List Char)
  | [] => none
  | c :: rest => if c = ':' then some [] else (schemeSplit rest).map (c :: ·)

/-- Stating aid for the spec sentence that the client identifier is
preserved on logout only if it parses as an absolute URI (success of
`new URL(client_id)`): a nonempty scheme — a letter followed by scheme
characters — terminated by a colon. This definition follows the words
of the spec, not any source function. -/
def isAbsoluteUri (str : String) : Bool :=
  match schemeSplit str.toList with
  | none => false
  | some [] => false
  | some (c :: rest) => c.isAlpha && rest.all isSchemeChar

/-- Modelled from the spec: the client-id preservation step of logout
("preserves clientDetails only if it parses as an absolute URI"; present
verbatim in the earlier SessionCore snapshots, absent from the 0.2.1
SessionCore source). A defined client identifier that is not an
absolute URI is dropped; everything else of the client details is
kept. -/
def preserveClientId (cd : Option ClientDetails) : Option ClientDetails :=
  match cd with
  | none => none
  | some c =>
      match c.client_id with
      | none => some c
      | some cid => if isAbsoluteUri cid then some c else some { c with client_id := none }

/-- SessionCore.logout: clears the active flag, webId, the access-token
hash, the IdP details and the token details (and with them the locally
tracked expiry), applies the client-id preservation rule, and clears the
persistent credential store. Modelled from the spec: the state-change
notification fires on logout exactly when the active flag actually
flips (the reading the spec design notes prescribe). -/
def logoutCore (s : SessionState) : SessionState × List SEvent :=
  let s1 := { s with
    isActive := false
    webId := none
    currentAth := none
    idpDetails := none
    tokenDetails := none
    sessionExp := none
    clientDetails := preserveClientId s.clientDetails }
  (s1, [.dbClear] ++ (if s.isActive then [.dispatch .stateChange] else []))

/-- WebWorkerSession.logout: posts STOP to the shared worker, then runs
the parent logout. -/
def logoutWeb (s : SessionState) : SessionState × List SEvent :=
  let r := logoutCore s
  (r.1, .postToWorker .stop :: r.2)

/-- SessionCore._updateSessionDetailsFromToken: with no access token,
or when decoding throws, or when the webid claim is missing, the session
is logged out (through the dynamically dispatched WebWorkerSession
logout); otherwise the access-token hash is recomputed, webId is set and
the session becomes active. The locally tracked expiry is updated from
the token claims (release 0.2.1 member, modelled from the spec). -/
def updateSessionDetailsFromToken (s : SessionState) (tok : Option Jwt) :
    SessionState × List SEvent :=
  match tok with
  | none => logoutWeb s
  | some t =>
      match decodeJwt t with
      | none => logoutWeb s
      | some claims =>
          match claims.webid with
          | none => logoutWeb s
          | some w =>
              ({ s with
                  currentAth := some (computeAth t)
                  webId := some w
                  isActive := true
                  sessionExp := claims.exp }, [])

/-- SessionCore.setTokenDetails: store the TokenDetails, then refresh the
derived session fields from its access token. -/
def setTokenDetails (s : SessionState) (td : TokenDetails) :
    SessionState × List SEvent :=
  updateSessionDetailsFromToken { s with tokenDetails := some td } (some td.access_token)

/-- Whether an access token yields a usable webid claim (the success path
of updateSessionDetailsFromToken). -/
def tokenUsable (td : TokenDetails) : Bool :=
  match decodeJwt td.access_token with
  | none => false
  | some claims => claims.webid.isSome

/-- WebWorkerSession.handleWorkerMessage: the inbound half of the
message protocol.
TOKEN_DETAILS: remember the active flag, apply the new tokens, dispatch
STATE_CHANGE iff the flag changed across the update, and resolve a
pending restore.
ERROR_ON_REFRESH: when active, dispatch EXPIRATION_WARNING; reject a
pending restore with the carried message (default when the carried
message is falsy) when active, with a fixed message when inactive.
EXPIRED: when active, dispatch EXPIRATION and log out; reject a pending
restore (the EXPIRED message carries no error, so the default message is
used). -/
def handleWorkerMessage (s : SessionState) (m : WorkerMsg) :
    SessionState × List SEvent :=
  match m with
  | .tokenDetailsMsg td =>
      let wasActive := s.isActive
      let r1 := setTokenDetails s td
      let ev2 := if wasActive != r1.1.isActive then [.dispatch .stateChange] else []
      match r1.1.refreshPromise with
      | some p =>
          ({ r1.1 with refreshPromise := none }, r1.2 ++ ev2 ++ [.resolveRestore p])
      | none => (r1.1, r1.2 ++ ev2)
  | .errorOnRefresh err =>
      let ev1 := if s.isActive then [.dispatch .expirationWarning] else []
      match s.refreshPromise with
      | some p =>
          let msg :=
            if s.isActive then (if err = "" then "Token refresh failed" else err)
            else "No session to restore"
          ({ s with refreshPromise := none }, ev1 ++ [.rejectRestore p msg])
      | none => (s, ev1)
  | .expired =>
      let r1 :=
        if s.isActive then
          let r := logoutWeb s
          (r.1, .dispatch .expiration :: r.2)
        else (s, [])
      match r1.1.refreshPromise with
      | some p =>
          ({ r1.1 with refreshPromise := none },
           r1.2 ++ [.rejectRestore p "Token refresh failed"])
      | none => r1

/-- WebWorkerSession.restore: an already pending restore is returned
as-is; otherwise a new pending promise is created and REFRESH is posted
to the shared worker. Returns the promise identity. -/
def restore (s : SessionState) : SessionState × List SEvent × Nat :=
  match s.refreshPromise with
  | some p => (s, [], p)
  | none =>
      let p := s.nextPromiseId
      ({ s with refreshPromise := some p, nextPromiseId := p + 1 },
       [.postToWorker .refresh], p)

/-- Modelled from the spec: the locally tracked expiry check used by the
0.2.1 authFetch ("if the access token is expired (by local exp)"): a
known expiry in the past. -/
def sessionIsExpired (s : SessionState) (now : ℤ) : Bool :=
  match s.sessionExp with
  | none => false
  | some e => e < (now : ℚ)

/-- Modelled from the spec: the expiry gate of the 0.2.1 authFetch —
when the access token is expired by the local expiry, trigger restore
(or join the one already pending) and await it before fetching. -/
def authFetchGate (s : SessionState) (now : ℤ) : SessionState × List SEvent :=
  if sessionIsExpired s now then
    let r := restore s
    (r.1, r.2.1)
  else (s, [])

/-- The body of SessionCore.authFetch: when token details are present, a
DPoP proof is created (throwing when the access-token hash is missing)
and the DPoP and Authorization headers are set; otherwise the request
goes out as a plain fetch without either header. -/
def authFetchCore (s : SessionState) : Except String (List SEvent) :=
  match s.tokenDetails with
  | some _ =>
      if s.currentAth.isSome then .ok [.netFetch true true]
      else .error "Session not established."
  | none => .ok [.netFetch false false]

/-- The 0.2.1 authFetch: the (spec-modelled) expiry gate followed by the
SessionCore fetch body. The suspension while the awaited restore settles
is not interleaved here; the gate events precede the fetch event. -/
def authFetch (s : SessionState) (now : ℤ) :
    SessionState × List SEvent × Except String Unit :=
  let g := authFetchGate s now
  match authFetchCore g.1 with
  | .ok evF => (g.1, g.2 ++ evF, .ok ())
  | .error m => (g.1, g.2, .error m)

/-- Number of STATE_CHANGE dispatches in a session event trace. -/
def countStateChange (evs : List SEvent) : Nat :=
  (evs.filter fun e => match e with | .dispatch .stateChange => true | _ => false).length

/-- Number of REFRESH requests posted to the worker in a session event
trace. -/
def countRefreshPosts (evs : List SEvent) : Nat :=
  (evs.filter fun e => match e with | .postToWorker .refresh => true | _ => false).length

/-! ## Concrete fixtures used by witnesses and counterexamples -/

/-- A well-formed TokenDetails bundle: the access token decodes to a
webid claim and an absolute expiry of 7200, with a lifetime of 3600 s. -/
def tdFix : TokenDetails :=
  { access_token := .valid (some "https://alice.example/card#me") (some 7200)
    id_token := none
    refresh_token := some "rt0"
    scope := none
    expires_in := 3600
    token_type := "DPoP"
    dpop_key_pair := 0 }

/-- A TokenDetails bundle whose access token decodes but carries no
webid claim. -/
def tdNoWebid : TokenDetails :=
  { access_token := .valid none (some 9999)
    id_token := none
    refresh_token := none
    scope := none
    expires_in := 3600
    token_type := "DPoP"
    dpop_key_pair := 0 }

/-! ## Helper lemmas -/

/-- The cached-token fast path of handleRefresh: with cached token
details, a truthy cached expiry that the zero-buffer check does not
consider expired, the Refresher replies to the requesting port only. -/
theorem handleRefresh_fastPath (s : RefresherState) (td : TokenDetails) (e : ℚ)
    (now : ℤ) (port : Nat) (htd : s.tokenDetails = some td) (hexp : s.exp = some e)
    (hne : e ≠ 0) (hge : ¬ e < (now : ℚ)) :
    handleRefresh s now port = (s, [.unicast port (.tokenDetailsMsg td)]) := by
  unfold handleRefresh
  rw [htd]
  simp [hexp, expTruthy, isTokenExpired, hne, hge]

/-- The refresh path of handleRefresh: with no cached token details the
request goes to performRefresh. -/
theorem handleRefresh_noToken (s : RefresherState) (now : ℤ) (port : Nat)
    (htd : s.tokenDetails = none) :
    handleRefresh s now port = performRefreshUnit s := by
  unfold handleRefresh
  rw [htd]

/-- handleSchedule stores the token details and the decoded expiry. -/
theorem handleSchedule_state (s : RefresherState) (td : TokenDetails)
    (claims : JwtClaims) (hdec : decodeJwt td.access_token = some claims) :
    (handleSchedule s td).1.tokenDetails = some td
    ∧ (handleSchedule s td).1.exp = claims.exp
    ∧ (handleSchedule s td).1.refreshPromise = s.refreshPromise := by
  simp only [handleSchedule, hdec, scheduleTimers, clearAllTimers]
  split <;> simp

/-! ## Claims about the Refresher -/

/-- Claim C1. A refresh already in flight is shared: performRefresh
returns the existing in-flight promise untouched with no GrantClient
call and no broadcast; the cache-miss path of handleRefresh and the
automatic refresh timer behave the same; and two handleRefresh calls
arriving while no token is cached and no refresh is in flight, followed
by the completion of the single started refresh, produce exactly one
GrantClient invocation and exactly one broadcast. -/
theorem refresher_inflight_refresh_is_shared
    (s s0 : RefresherState) (p : Nat) (now : ℤ) (port1 port2 : Nat)
    (td : TokenDetails) (claims : JwtClaims)
    (hin : s.refreshPromise = some p)
    (h0tok : s0.tokenDetails = none) (h0p : s0.refreshPromise = none)
    (hdec : decodeJwt td.access_token = some claims) :
    performRefresh s = (s, [], p)
    ∧ performRefreshUnit s = (s, [])
    ∧ refreshTimerFire s = ({ s with refreshTimerArmed := none }, [])
    ∧ countGrantCalls
        ((handleRefresh s0 now port1).2
          ++ (handleRefresh (handleRefresh s0 now port1).1 now port2).2
          ++ (refreshComplete (handleRefresh (handleRefresh s0 now port1).1 now port2).1
                (.ok td)).2) = 1
    ∧ countBroadcasts
        ((handleRefresh s0 now port1).2
          ++ (handleRefresh (handleRefresh s0 now port1).1 now port2).2
          ++ (refreshComplete (handleRefresh (handleRefresh s0 now port1).1 now port2).1
                (.ok td)).2) = 1 := by
  refine ⟨?_, ?_, ?_, ?_, ?_⟩
  · unfold performRefresh; rw [hin]
  · unfold performRefreshUnit performRefresh; rw [hin]
  · unfold refreshTimerFire performRefreshUnit performRefresh; simp [hin]
  all_goals
    rw [handleRefresh_noToken s0 now port1 h0tok]
    unfold performRefreshUnit performRefresh
    rw [h0p]
    simp only
    rw [handleRefresh_noToken _ now port2 (by simp [h0tok])]
    unfold performRefreshUnit performRefresh
    simp only [refreshComplete]
    rw [hdec]
    simp [countGrantCalls, countBroadcasts]

/-- Witness for C1 at concrete inputs: a state with an in-flight promise
and an initial state with no cache, using the well-formed fixture
token. -/
theorem refresher_inflight_refresh_is_shared_witness :
    ({ initialRefresher with refreshPromise := some 5 } : RefresherState).refreshPromise = some 5
    ∧ performRefresh { initialRefresher with refreshPromise := some 5 }
        = ({ initialRefresher with refreshPromise := some 5 }, [], 5)
    ∧ countGrantCalls
        ((handleRefresh initialRefresher 0 1).2
          ++ (handleRefresh (handleRefresh initialRefresher 0 1).1 0 2).2
          ++ (refreshComplete (handleRefresh (handleRefresh initialRefresher 0 1).1 0 2).1
                (.ok tdFix)).2) = 1 := by
  refine ⟨rfl, ?_, ?_⟩
  · exact (refresher_inflight_refresh_is_shared
      { initialRefresher with refreshPromise := some 5 } initialRefresher 5 0 1 2 tdFix
      ⟨some "https://alice.example/card#me", some 7200⟩ rfl rfl rfl rfl).1
  · exact (refresher_inflight_refresh_is_shared
      { initialRefresher with refreshPromise := some 5 } initialRefresher 5 0 1 2 tdFix
      ⟨some "https://alice.example/card#me", some 7200⟩ rfl rfl rfl rfl).2.2.2.1

/-- Claim C2. After handleSchedule of a token whose decoded expiry lies
strictly in the future (at a nonnegative current time), handleRefresh
replies to the requesting port only, with exactly the cached
TokenDetails, without any GrantClient call and without any broadcast. -/
theorem refresher_cached_reply_on_valid_token
    (s : RefresherState) (t : TokenDetails) (w : Option String) (e : ℚ)
    (now : ℤ) (port : Nat)
    (hdec : decodeJwt t.access_token = some ⟨w, some e⟩)
    (hnow : 0 ≤ now) (hfresh : (now : ℚ) < e) :
    (handleSchedule s t).1.tokenDetails = some t
    ∧ handleRefresh (handleSchedule s t).1 now port
        = ((handleSchedule s t).1, [.unicast port (.tokenDetailsMsg t)]) := by
  obtain ⟨h1, h2, -⟩ := handleSchedule_state s t ⟨w, some e⟩ hdec
  refine ⟨h1, handleRefresh_fastPath _ t e now port h1 h2 ?_ (by linarith)⟩
  have : (0 : ℚ) ≤ (now : ℚ) := by exact_mod_cast hnow
  intro h0
  rw [h0] at hfresh
  linarith

/-- Witness for C2 at concrete inputs: the fixture token scheduled on
the fresh Refresher, queried at time 1000 (expiry 7200). -/
theorem refresher_cached_reply_on_valid_token_witness :
    decodeJwt tdFix.access_token
      = some ⟨some "https://alice.example/card#me", some 7200⟩
    ∧ (0 : ℤ) ≤ 1000 ∧ ((1000 : ℤ) : ℚ) < 7200
    ∧ handleRefresh (handleSchedule initialRefresher tdFix).1 1000 4
        = ((handleSchedule initialRefresher tdFix).1,
           [.unicast 4 (.tokenDetailsMsg tdFix)]) := by
  refine ⟨rfl, by norm_num, by norm_num, ?_⟩
  exact (refresher_cached_reply_on_valid_token initialRefresher tdFix
    (some "https://alice.example/card#me") 7200 1000 4 rfl (by norm_num)
    (by norm_num)).2

/-- Claim C3. When the GrantClient call fails, the refresh continuation
broadcasts ERROR_ON_REFRESH carrying the error message, changes neither
the cached token details, the cached expiry, the two timers nor the
timersAreRunning flag, clears the in-flight promise, and returns
normally (it is a total function, so no exception escapes). -/
theorem refresher_failure_broadcasts_and_preserves
    (s : RefresherState) (msg : String) :
    refreshComplete s (.error msg)
      = ({ s with refreshPromise := none }, [.broadcast (.errorOnRefresh msg)])
    ∧ (refreshComplete s (.error msg)).1.tokenDetails = s.tokenDetails
    ∧ (refreshComplete s (.error msg)).1.exp = s.exp
    ∧ (refreshComplete s (.error msg)).1.refreshTimerArmed = s.refreshTimerArmed
    ∧ (refreshComplete s (.error msg)).1.logoutTimerArmed = s.logoutTimerArmed
    ∧ (refreshComplete s (.error msg)).1.timersAreRunning = s.timersAreRunning
    ∧ (refreshComplete s (.error msg)).1.refreshPromise = none := by
  refine ⟨rfl, rfl, rfl, rfl, rfl, rfl, rfl⟩

/-- Claim C4. scheduleTimers first clears any previously armed timers,
arms the refresh timer with delay 0.8 x L x 1000 ms exactly when that
delay strictly exceeds 30000 ms — equivalently exactly when L > 37.5 s —
and always arms the logout timer with delay L x 1000 - 5000 ms. -/
theorem refresher_timer_scheduling (s : RefresherState) (L : ℚ) :
    (scheduleTimers s L).refreshTimerArmed
      = (if (0.8 : ℚ) * (L * 1000) > 30 * 1000 then some ((0.8 : ℚ) * (L * 1000)) else none)
    ∧ (scheduleTimers s L).logoutTimerArmed = some (L * 1000 - 5 * 1000)
    ∧ (scheduleTimers s L).timersAreRunning = true
    ∧ ((scheduleTimers s L).refreshTimerArmed.isSome ↔ L > (37.5 : ℚ)) := by
  have key : (30 * 1000 < (0.8 : ℚ) * (L * 1000)) ↔ L > (37.5 : ℚ) := by
    constructor <;> intro hk <;> nlinarith
  by_cases h : (0.8 : ℚ) * (L * 1000) > 30 * 1000
  · simp only [scheduleTimers, clearAllTimers, if_pos h]
    simp [key.mp h]
  · simp only [scheduleTimers, clearAllTimers, if_neg h]
    have hnot : ¬ L > (37.5 : ℚ) := fun hL => h (key.mpr hL)
    simp [hnot]

/-- Counterexample for C5. The state reached by scheduling the fixture
token and letting the logout timer fire is reachable and has no cached
token details, so handleStop returns immediately: afterwards
timersAreRunning is still true and the cached expiry is still set,
contrary to the claim. -/
theorem refresher_stop_after_expiry_counterexample :
    (handleStop (logoutTimerFire (handleSchedule initialRefresher tdFix).1).1).1.timersAreRunning
      = true
    ∧ (handleStop (logoutTimerFire (handleSchedule initialRefresher tdFix).1).1).1.exp
        = some 7200 := by
  constructor
  · simp [handleStop, logoutTimerFire, handleSchedule, decodeJwt, scheduleTimers,
      clearAllTimers, tdFix]
  · simp [handleStop, logoutTimerFire, handleSchedule, decodeJwt, scheduleTimers,
      clearAllTimers, tdFix]
    norm_num

/-- Claim C5 as amended: restricted to states in which token details are
cached, handleStop leaves timersAreRunning false and tokenDetails, exp
and the in-flight refresh promise undefined, and a second handleStop
from the resulting state is a no-op that returns normally. (After the
logout timer has fired the cached token details are gone and handleStop
is instead an immediate no-op that leaves timersAreRunning and exp
untouched.) -/
theorem refresher_stop_clears_when_token_cached
    (s : RefresherState) (h : s.tokenDetails.isSome = true) :
    (handleStop s).1.timersAreRunning = false
    ∧ (handleStop s).1.tokenDetails = none
    ∧ (handleStop s).1.exp = none
    ∧ (handleStop s).1.refreshPromise = none
    ∧ handleStop (handleStop s).1 = ((handleStop s).1, []) := by
  obtain ⟨td, htd⟩ := Option.isSome_iff_exists.mp h
  unfold handleStop clearAllTimers
  rw [htd]
  simp

/-- Witness for C5 as amended: the fresh Refresher right after
scheduling the fixture token has cached token details. -/
theorem refresher_stop_clears_when_token_cached_witness :
    ({ initialRefresher with tokenDetails := some tdFix } : RefresherState).tokenDetails.isSome
      = true
    ∧ (handleStop { initialRefresher with tokenDetails := some tdFix }).1.timersAreRunning
        = false := by
  refine ⟨rfl, ?_⟩
  exact (refresher_stop_clears_when_token_cached
    { initialRefresher with tokenDetails := some tdFix } rfl).1

/-- Counterexample for C6. With the cached expiry exactly equal to the
current time the zero-buffer check does not count the token as expired:
handleRefresh takes the cached-reply fast path (a unicast, no
GrantClient call), not the network-refresh path the claim requires. -/
theorem refresher_exact_expiry_counterexample :
    isTokenExpired (some 1000) 1000 0 = false
    ∧ handleRefresh
        { initialRefresher with tokenDetails := some tdFix, exp := some 1000 } 1000 9
        = ({ initialRefresher with tokenDetails := some tdFix, exp := some 1000 },
           [.unicast 9 (.tokenDetailsMsg tdFix)])
    ∧ countGrantCalls
        (handleRefresh
          { initialRefresher with tokenDetails := some tdFix, exp := some 1000 } 1000 9).2
        = 0 := by
  refine ⟨by norm_num [isTokenExpired], ?_, ?_⟩ <;>
    simp [handleRefresh, expTruthy, isTokenExpired, countGrantCalls]

/-- Claim C6 as amended: expiry is tested with zero buffer, but a token
whose exp claim exactly equals the current Unix time counts as NOT
expired: with cached token details and a truthy cached expiry, the
cached-reply fast path is taken whenever exp is greater than or equal to
the current time (in particular at the exact expiry instant), and the
network-refresh path is taken exactly when exp lies strictly in the
past. -/
theorem refresher_expiry_boundary
    (e : ℚ) (now : ℤ) (s : RefresherState) (td : TokenDetails) (port : Nat)
    (htd : s.tokenDetails = some td) (hexp : s.exp = some e) (hne : e ≠ 0) :
    isTokenExpired (some e) now 0 = decide (e < (now : ℚ))
    ∧ ((now : ℚ) ≤ e →
        handleRefresh s now port = (s, [.unicast port (.tokenDetailsMsg td)]))
    ∧ (e < (now : ℚ) → handleRefresh s now port = performRefreshUnit s) := by
  refine ⟨by simp [isTokenExpired], ?_, ?_⟩
  · intro hle
    exact handleRefresh_fastPath s td e now port htd hexp hne (not_lt.mpr hle)
  · intro hlt
    unfold handleRefresh
    rw [htd]
    simp [hexp, expTruthy, isTokenExpired, hlt]

/-- Witness for C6 as amended at concrete inputs: expiry 1000 queried at
time 1000 (fast path) and the strict-past direction checked through the
zero-buffer equation. -/
theorem refresher_expiry_boundary_witness :
    ({ initialRefresher with tokenDetails := some tdFix, exp := some 1000 }
        : RefresherState).tokenDetails = some tdFix
    ∧ ((1000 : ℤ) : ℚ) ≤ 1000
    ∧ handleRefresh
        { initialRefresher with tokenDetails := some tdFix, exp := some 1000 } 1000 9
        = ({ initialRefresher with tokenDetails := some tdFix, exp := some 1000 },
           [.unicast 9 (.tokenDetailsMsg tdFix)]) := by
  refine ⟨rfl, by norm_num, ?_⟩
  exact (refresher_expiry_boundary 1000 1000
    { initialRefresher with tokenDetails := some tdFix, exp := some 1000 }
    tdFix 9 rfl rfl (by norm_num)).2.1 (by norm_num)

/-- Claim C10. handleStop with cached token details broadcasts EXPIRED
(which the transport shell fans out to every connected tab) and then
clears tokenDetails, exp and the in-flight promise and cancels both
timers; with no cached token details it returns immediately, leaving the
whole state untouched and sending nothing. -/
theorem refresher_stop_behaviour
    (s : RefresherState) (ports : List Nat) (q : Nat) (hq : q ∈ ports) :
    handleStop s
      = (if s.tokenDetails.isSome then
          ({ s with tokenDetails := none, exp := none, refreshPromise := none,
                    refreshTimerArmed := none, logoutTimerArmed := none,
                    timersAreRunning := false }, [.broadcast .expired])
        else (s, []))
    ∧ (q, WorkerMsg.expired) ∈ fanOut ports .expired := by
  constructor
  · unfold handleStop clearAllTimers
    cases htd : s.tokenDetails <;> simp
  · simp only [fanOut, List.mem_map]
    exact ⟨q, hq, rfl⟩

/-- Witness for C10 at concrete inputs: the fresh Refresher (no cached
token) and a three-tab port set. -/
theorem refresher_stop_behaviour_witness :
    (4 : Nat) ∈ [3, 4, 7]
    ∧ ((4 : Nat), WorkerMsg.expired) ∈ fanOut [3, 4, 7] .expired := by
  refine ⟨by decide, ?_⟩
  exact (refresher_stop_behaviour initialRefresher [3, 4, 7] 4 (by decide)).2

/-! ## Claims about the per-tab session -/

/-- An active session fixture: logged in with the fixture token, no
restore pending, no client details. -/
def sessionActiveFix : SessionState :=
  { isActive := true
    webId := some "https://alice.example/card#me"
    currentAth := some (.valid (some "https://alice.example/card#me") (some 7200))
    clientDetails := none
    idpDetails := none
    tokenDetails := some tdFix
    sessionExp := some 7200
    refreshPromise := none
    nextPromiseId := 0 }

/-- logoutWeb always ends inactive and fires the state-change
notification exactly when the session was active. -/
theorem logoutWeb_notice_count (s : SessionState) :
    (logoutWeb s).1.isActive = false
    ∧ countStateChange (logoutWeb s).2 = (if s.isActive then 1 else 0) := by
  cases h : s.isActive <;>
    simp [logoutWeb, logoutCore, countStateChange, h]

/-- Counterexample for C7. A TOKEN_DETAILS message carrying an access
token without a usable webid claim, received while the session is
active, flips the active flag exactly once — yet fires the state-change
notification twice (once from the internal logout inside the token
update, once from the message handler itself), contradicting
"exactly one state-change notification fires". -/
theorem session_notification_counterexample :
    sessionActiveFix.isActive = true
    ∧ (handleWorkerMessage sessionActiveFix (.tokenDetailsMsg tdNoWebid)).1.isActive = false
    ∧ countStateChange
        (handleWorkerMessage sessionActiveFix (.tokenDetailsMsg tdNoWebid)).2 = 2 := by
  refine ⟨rfl, ?_, ?_⟩ <;>
    simp [handleWorkerMessage, setTokenDetails, updateSessionDetailsFromToken,
      decodeJwt, tdNoWebid, logoutWeb, logoutCore, preserveClientId,
      sessionActiveFix, countStateChange]

/-- Claim C7 as amended: for inbound worker messages and for logout, the
state-change notification fires exactly once per actual flip of the
active flag and never without a flip — with one exception: a
TOKEN_DETAILS message whose access token yields no usable webid claim,
received while the session is active, performs an internal logout and
fires the notification twice for the single active-to-inactive flip.
In detail: a usable TOKEN_DETAILS leaves the session active and fires
iff it was inactive before; an unusable TOKEN_DETAILS leaves it inactive
and fires twice when it was active, never when it was not;
ERROR_ON_REFRESH never fires a state-change notification; EXPIRED and
logout fire it exactly once when the session was active, never when it
was not. -/
theorem session_notification_discipline
    (s : SessionState) (td : TokenDetails) (err : String) :
    (tokenUsable td = true →
      (handleWorkerMessage s (.tokenDetailsMsg td)).1.isActive = true
      ∧ countStateChange (handleWorkerMessage s (.tokenDetailsMsg td)).2
          = (if s.isActive then 0 else 1))
    ∧ (tokenUsable td = false →
        (handleWorkerMessage s (.tokenDetailsMsg td)).1.isActive = false
        ∧ countStateChange (handleWorkerMessage s (.tokenDetailsMsg td)).2
            = (if s.isActive then 2 else 0))
    ∧ countStateChange (handleWorkerMessage s (.errorOnRefresh err)).2 = 0
    ∧ countStateChange (handleWorkerMessage s .expired).2
        = (if s.isActive then 1 else 0)
    ∧ (logoutWeb s).1.isActive = false
    ∧ countStateChange (logoutWeb s).2 = (if s.isActive then 1 else 0) := by
  obtain ⟨hl1, hl2⟩ := logoutWeb_notice_count s
  refine ⟨?_, ?_, ?_, ?_, hl1, hl2⟩
  · intro h
    rcases hacc : td.access_token with _ | ⟨wopt, eopt⟩
    · rw [tokenUsable, hacc] at h
      simp [decodeJwt] at h
    · rcases wopt with _ | ⟨w⟩
      · rw [tokenUsable, hacc] at h
        simp [decodeJwt] at h
      · cases hact : s.isActive <;> cases hrp : s.refreshPromise <;>
          simp [handleWorkerMessage, setTokenDetails, updateSessionDetailsFromToken,
            decodeJwt, hacc, hact, hrp, countStateChange, computeAth]
  · intro h
    have hcase :
        (handleWorkerMessage s (.tokenDetailsMsg td)).1.isActive = false
        ∧ countStateChange (handleWorkerMessage s (.tokenDetailsMsg td)).2
            = (if s.isActive then 2 else 0) := by
      rcases hacc : td.access_token with _ | ⟨wopt, eopt⟩
      · cases hact : s.isActive <;> cases hrp : s.refreshPromise <;>
          simp [handleWorkerMessage, setTokenDetails, updateSessionDetailsFromToken,
            decodeJwt, hacc, hact, hrp, countStateChange, logoutWeb, logoutCore]
      · rcases wopt with _ | ⟨w⟩
        · cases hact : s.isActive <;> cases hrp : s.refreshPromise <;>
            simp [handleWorkerMessage, setTokenDetails, updateSessionDetailsFromToken,
              decodeJwt, hacc, hact, hrp, countStateChange, logoutWeb, logoutCore]
        · rw [tokenUsable, hacc] at h
          simp [decodeJwt] at h
    exact hcase
  · cases hact : s.isActive <;> cases hrp : s.refreshPromise <;>
      simp [handleWorkerMessage, hact, hrp, countStateChange]
  · cases hact : s.isActive <;> cases hrp : s.refreshPromise <;>
      simp [handleWorkerMessage, hact, hrp, countStateChange, logoutWeb, logoutCore]

/-- Witness for C7 as amended at concrete inputs: the active fixture
session receiving a usable TOKEN_DETAILS (no notification, still
active) and an unusable one (two notifications, flip to inactive). -/
theorem session_notification_discipline_witness :
    tokenUsable tdFix = true
    ∧ tokenUsable tdNoWebid = false
    ∧ countStateChange
        (handleWorkerMessage sessionActiveFix (.tokenDetailsMsg tdFix)).2 = 0
    ∧ countStateChange
        (handleWorkerMessage sessionActiveFix (.tokenDetailsMsg tdNoWebid)).2 = 2 := by
  refine ⟨rfl, rfl, ?_, ?_⟩
  · have h := ((session_notification_discipline sessionActiveFix tdFix "").1 rfl).2
    simpa using h
  · have h := ((session_notification_discipline sessionActiveFix tdNoWebid "").2.1 rfl).2
    simpa using h

/-- Claim C8. authFetch under an expired local expiry triggers a restore
(posting exactly one REFRESH and recording the pending promise) when
none is pending, and joins the already pending restore (posting nothing
new) otherwise — in both cases ahead of the network fetch, which the
definition of authFetch appends after the gate events. With no session
(no token details) the request goes out as a plain fetch with neither
the DPoP nor the Authorization header. -/
theorem session_authFetch_gate_and_plain
    (s s2 : SessionState) (now now2 : ℤ) (p : Nat) :
    (sessionIsExpired s now = true → s.refreshPromise = none →
      authFetchGate s now
        = ({ s with refreshPromise := some s.nextPromiseId,
                    nextPromiseId := s.nextPromiseId + 1 },
           [.postToWorker .refresh]))
    ∧ (sessionIsExpired s now = true → s.refreshPromise = some p →
        authFetchGate s now = (s, []))
    ∧ (s.tokenDetails = none →
        authFetch s now
          = ((authFetchGate s now).1,
             (authFetchGate s now).2 ++ [.netFetch false false], .ok ()))
    ∧ (s2.tokenDetails = none → sessionIsExpired s2 now2 = false →
        authFetch s2 now2 = (s2, [.netFetch false false], .ok ())) := by
  refine ⟨?_, ?_, ?_, ?_⟩
  · intro hexp hrp
    simp [authFetchGate, restore, hexp, hrp]
  · intro hexp hrp
    simp [authFetchGate, restore, hexp, hrp]
  · intro htd
    have ht : (authFetchGate s now).1.tokenDetails = none := by
      unfold authFetchGate restore
      cases hrp : s.refreshPromise <;> cases hexp : sessionIsExpired s now <;> simp [htd]
    simp [authFetch, authFetchCore, ht]
  · intro htd hexp
    simp [authFetch, authFetchGate, authFetchCore, htd, hexp]

/-- Witness for C8 at concrete inputs: an expired state with no pending
restore, the same state with a pending restore, and an inactive session
with no token details. -/
theorem session_authFetch_gate_and_plain_witness :
    sessionIsExpired { sessionActiveFix with sessionExp := some 10 } 100 = true
    ∧ ({ sessionActiveFix with sessionExp := some 10 } : SessionState).refreshPromise = none
    ∧ authFetchGate { sessionActiveFix with sessionExp := some 10 } 100
        = ({ sessionActiveFix with sessionExp := some 10, refreshPromise := some 0, nextPromiseId := 1 },
           [.postToWorker .refresh])
    ∧ authFetchGate { sessionActiveFix with sessionExp := some 10, refreshPromise := some 6 } 100
        = ({ sessionActiveFix with sessionExp := some 10, refreshPromise := some 6 }, [])
    ∧ authFetch (initialSession none) 0
        = (initialSession none, [.netFetch false false], .ok ()) := by
  have he : sessionIsExpired { sessionActiveFix with sessionExp := some 10 } 100 = true := by
    norm_num [sessionIsExpired]
  have he2 :
      sessionIsExpired { sessionActiveFix with sessionExp := some 10, refreshPromise := some 6 } 100
        = true := by
    norm_num [sessionIsExpired]
  refine ⟨he, rfl, ?_, ?_, ?_⟩
  · exact (session_authFetch_gate_and_plain
      { sessionActiveFix with sessionExp := some 10 } (initialSession none) 100 0 6).1 he rfl
  · exact (session_authFetch_gate_and_plain
      { sessionActiveFix with sessionExp := some 10, refreshPromise := some 6 }
      (initialSession none) 100 0 6).2.1 he2 rfl
  · exact (session_authFetch_gate_and_plain (initialSession none)
      (initialSession none) 0 0 6).2.2.2 rfl rfl

/-- Claim C9. After logout the active flag, webId, the DPoP access-token
hash, the IdP details and the token details are all cleared; the client
details survive with their client identifier intact exactly when that
identifier parses as an absolute URI, and with the identifier dropped
otherwise. -/
theorem session_logout_clears
    (s : SessionState) (c : ClientDetails) (cid : String) :
    (logoutWeb s).1.isActive = false
    ∧ (logoutWeb s).1.webId = none
    ∧ (logoutWeb s).1.currentAth = none
    ∧ (logoutWeb s).1.idpDetails = none
    ∧ (logoutWeb s).1.tokenDetails = none
    ∧ (s.clientDetails = some c → c.client_id = some cid →
        (logoutWeb s).1.clientDetails
          = some (if isAbsoluteUri cid then c else { c with client_id := none })) := by
  refine ⟨rfl, rfl, rfl, rfl, rfl, ?_⟩
  intro h1 h2
  simp only [logoutWeb, logoutCore, preserveClientId, h1, h2]
  split <;> simp_all

/-- Witness for C9 at concrete inputs: a client identifier that is an
absolute URI survives logout intact; one that is not loses its client
identifier. -/
theorem session_logout_clears_witness :
    isAbsoluteUri "https://app.example/id" = true
    ∧ isAbsoluteUri "my-web-app" = false
    ∧ (logoutWeb (initialSession (some ⟨some "https://app.example/id", []⟩))).1.clientDetails
        = some ⟨some "https://app.example/id", []⟩
    ∧ (logoutWeb (initialSession (some ⟨some "my-web-app", []⟩))).1.clientDetails
        = some ⟨none, []⟩ := by
  refine ⟨by decide, by decide, ?_, ?_⟩
  · have h := (session_logout_clears (initialSession (some ⟨some "https://app.example/id", []⟩))
      ⟨some "https://app.example/id", []⟩ "https://app.example/id").2.2.2.2.2 rfl rfl
    simpa [show isAbsoluteUri "https://app.example/id" = true by decide] using h
  · have h := (session_logout_clears (initialSession (some ⟨some "my-web-app", []⟩))
      ⟨some "my-web-app", []⟩ "my-web-app").2.2.2.2.2 rfl rfl
    simpa [show isAbsoluteUri "my-web-app" = false by decide] using h

end SolidOidc
